import Mathlib

/-!
Verification of the `text-to-openapi` service: a shallow embedding of the
pipeline orchestrator (`src/index.ts`, POST `/api/generate-openapi`) and the
tool modules (`validateOpenAPISchema.ts`, `evaluateAlignment.ts`,
`evaluateVeracity.ts`).

External collaborators (the language-model calls made through `generateObject`
and `generateText`, the Node built-in `JSON.parse`, the JavaScript
`parseFloat`, and `SwaggerParser.validate`) are modelled as explicit oracle
parameters: a model call either throws (an `Except.error` carrying the thrown
message) or returns a value; `JSON.parse` is a function `String → Option Json`
(`none` = throws a SyntaxError); `parseFloat` is `String → Option ℚ` (`none` =
`NaN`); `SwaggerParser.validate` is `Json → Option String` (`none` = resolves,
`some e` = rejects with message `e`).  The orchestrator and tool bodies are
translated statement by statement from the TypeScript source.
-/

namespace TextToOpenapi

/-- JavaScript `String.prototype.trim()`: strip leading and trailing
whitespace.  Whitespace is modelled as the ASCII whitespace characters
(space, tab, CR, LF), the ones relevant to the strings this service
handles. -/
def jsTrim (s : String) : String :=
  ((s.toList.dropWhile Char.isWhitespace).reverse.dropWhile
    Char.isWhitespace).reverse.asString

/-- JavaScript `String.prototype.toLowerCase()`: lower-case each character
(ASCII case mapping). -/
def jsToLowerCase (s : String) : String :=
  (s.toList.map Char.toLower).asString

/-- JSON values, as produced by `JSON.parse`.  Numbers are modelled as
rationals. -/
inductive Json where
  | null : Json
  | bool (b : Bool) : Json
  | num (q : ℚ) : Json
  | str (s : String) : Json
  | arr (elems : List Json) : Json
  | obj (fields : List (String × Json)) : Json

/-- JavaScript `typeof v === 'object' && v !== null`: true for objects and
arrays (`typeof [] === 'object'` in JavaScript), false for `null`, numbers,
strings and booleans. -/
def jsIsNonNullObject : Json → Bool
  | Json.obj _ => true
  | Json.arr _ => true
  | _ => false

/-- JavaScript `Object.keys(v).length` for the values that reach that call in
the source: own enumerable keys of an object, index keys of an array, and no
keys for primitives. -/
def jsObjectKeysLen : Json → Nat
  | Json.obj fields => fields.length
  | Json.arr elems => elems.length
  | _ => 0

/-- Result shape of `validateOpenAPISchema` (`ValidationResult` in
`src/tools/validateOpenAPISchema.ts`): `{ isValid: boolean; error: string |
null }`.  `none` models JavaScript `null`. -/
structure ValidationResult where
  isValid : Bool
  error : Option String
deriving DecidableEq, Repr

/-- `validateOpenAPISchema(oasJsonString)` from
`src/tools/validateOpenAPISchema.ts`.

`parse` is the `JSON.parse` oracle and `swaggerValidate` the
`SwaggerParser.validate` oracle (`none` = promise resolves, `some e` = promise
rejects with message `e`).  The source first tries `JSON.parse`; a parse throw,
or a parsed value with `typeof !== 'object'` or `=== null`, is caught and
reported as `"Input string is not valid JSON."`.  Otherwise
`SwaggerParser.validate` runs: resolution gives `{isValid: true, error: null}`,
rejection gives `{isValid: false, error: "OAS validation failed: " + message}`. -/
def validateOpenAPISchema (parse : String → Option Json)
    (swaggerValidate : Json → Option String) (oasJsonString : String) :
    ValidationResult :=
  match parse oasJsonString with
  | none => { isValid := false, error := some "Input string is not valid JSON." }
  | some parsedSchema =>
    if jsIsNonNullObject parsedSchema then
      match swaggerValidate parsedSchema with
      | none => { isValid := true, error := none }
      | some msg =>
        { isValid := false, error := some ("OAS validation failed: " ++ msg) }
    else
      { isValid := false, error := some "Input string is not valid JSON." }

/-- Result shape of `evaluateAlignment` (`AlignmentResult` in
`src/tools/evaluateAlignment.ts`): `{ score: number }` with the optional
`reasoning` field never populated by the source. -/
structure AlignmentResult where
  score : ℚ
deriving DecidableEq, Repr

/-- `evaluateAlignment(userQuery, generatedOAS)` from
`src/tools/evaluateAlignment.ts`, abstracted over its external effects.

`apiKey` models `process.env.GEMINI_API_KEY` (`none` = unset, which throws
before the try block).  `llmText` models the `generateText` call: `.error e` is
a rejected promise with message `e`, `.ok text` the returned completion text.
`parseFloat` models the JavaScript `parseFloat` (`none` = `NaN`).  Inside the
try block the source computes `parseFloat(text.trim())` and throws
`"Alignment evaluator returned an invalid score: " + text` when the score is
`NaN`, `< 0.0` or `> 5.0`; every throw inside the try block is re-wrapped by
the catch as `"Alignment evaluation failed: " + message`. -/
def evaluateAlignment (apiKey : Option String) (parseFloat : String → Option ℚ)
    (llmText : Except String String) : Except String AlignmentResult :=
  match apiKey with
  | none =>
    Except.error "GEMINI_API_KEY environment variable is not set for alignment evaluation."
  | some _ =>
    match llmText with
    | Except.error e => Except.error ("Alignment evaluation failed: " ++ e)
    | Except.ok text =>
      match parseFloat (jsTrim text) with
      | none =>
        Except.error ("Alignment evaluation failed: Alignment evaluator returned an invalid score: " ++ text)
      | some score =>
        if score < 0 ∨ score > 5 then
          Except.error ("Alignment evaluation failed: Alignment evaluator returned an invalid score: " ++ text)
        else
          Except.ok { score := score }

/-- Result shape of `evaluateVeracity` (`VeracityResult`): `{ is_accurate:
boolean }` with the optional `reasoning` field never populated by the source. -/
structure VeracityResult where
  is_accurate : Bool
deriving DecidableEq, Repr

/-- `evaluateVeracity(generatedOAS, sourceUrl)` from
`src/tools/evaluateVeracity.ts`, abstracted over its external effects.

`apiKey` models `process.env.GEMINI_API_KEY`; `llmText` the tool-augmented
`generateText` call.  The source computes `result = text.trim().toLowerCase()`,
throws `"Veracity evaluator returned an invalid response: " + text` unless
`result` is `'true'` or `'false'` (the catch re-wraps the message as
`"Veracity evaluation failed: " + message`), and otherwise returns
`{ is_accurate: result === 'true' }`. -/
def evaluateVeracity (apiKey : Option String)
    (llmText : Except String String) : Except String VeracityResult :=
  match apiKey with
  | none =>
    Except.error "GEMINI_API_KEY environment variable is not set for veracity evaluation."
  | some _ =>
    match llmText with
    | Except.error e => Except.error ("Veracity evaluation failed: " ++ e)
    | Except.ok text =>
      let result := jsToLowerCase (jsTrim text)
      if result ≠ "true" ∧ result ≠ "false" then
        Except.error ("Veracity evaluation failed: Veracity evaluator returned an invalid response: " ++ text)
      else
        Except.ok { is_accurate := result = "true" }

/-- `rawOutput.match(/\{[\s\S]*\}/)` over a character list: the JavaScript
regex is greedy, so a match exists exactly when the first `{` of the string is
followed (strictly later) by some `}`, and the matched span runs from that
first `{` to the **last** `}` of the string.  Dropping up to the first `{` and
then truncating after the last `}` realizes this; a result of length `< 2`
means no character pair `{`...`}` existed, i.e. no match. -/
def extractJsonBlockList (s : List Char) : Option (List Char) :=
  let fromBrace := s.dropWhile (fun c => c ≠ '{')
  let upToClose := (fromBrace.reverse.dropWhile (fun c => c ≠ '}')).reverse
  if 2 ≤ upToClose.length then some upToClose else none

/-- String wrapper for `extractJsonBlockList`: the Step 3b extraction
`rawOutput.match(/\{[\s\S]*\}/)` of `src/index.ts`. -/
def extractJsonBlock (s : String) : Option String :=
  (extractJsonBlockList s.toList).map List.asString

/-- Modelled from the spec: the extraction the specification describes for
Structured Synthesis — "extracts the first top-level brace-balanced JSON block
from the final output via pattern match (first `{...}` span)".  This scanner
starts at the first `{` and returns the span that closes it: the prefix ending
at the matching `}` where the brace depth first returns to zero.  It exists
only to be compared against `extractJsonBlock`, the extraction the source
actually performs. -/
def specBalancedScan : List Char → Nat → List Char → Option (List Char)
  | [], _, _ => none
  | c :: rest, depth, acc =>
    if c = '{' then specBalancedScan rest (depth + 1) (c :: acc)
    else if c = '}' then
      if depth ≤ 1 then some (c :: acc).reverse
      else specBalancedScan rest (depth - 1) (c :: acc)
    else specBalancedScan rest depth (c :: acc)

/-- Modelled from the spec: "the first top-level brace-balanced JSON block
(the first `{...}` span)" — see `specBalancedScan`. -/
def specFirstBalancedBlock (s : String) : Option String :=
  match s.toList.dropWhile (fun c => c ≠ '{') with
  | [] => none
  | c :: rest => (specBalancedScan rest 1 [c]).map List.asString

/-- The Step 3b post-processing of the final agent output (`src/index.ts`
lines 240–274): trim the text, extract a JSON block with the greedy regex
(throwing `"Agent output did not contain a recognizable JSON block. Output:
..."` when there is none), `JSON.parse` it (throwing `"Final extracted block
was not valid JSON. Extracted: ..."` on a parse error), and throw
`"Iterative generation resulted in an empty JSON object '{}'."` when the
parsed value is not a non-null object or has no keys.  On success the source
keeps the extracted **string** (`generatedOASString = jsonString`). -/
def step3bExtract (parse : String → Option Json) (finalText : String) :
    Except String String :=
  let rawOutput := jsTrim finalText
  match extractJsonBlock rawOutput with
  | none =>
    Except.error ("Agent output did not contain a recognizable JSON block. Output: " ++ rawOutput)
  | some jsonString =>
    match parse jsonString with
    | none =>
      Except.error ("Final extracted block was not valid JSON. Extracted: " ++ jsonString)
    | some parsedOAS =>
      if jsIsNonNullObject parsedOAS ∧ jsObjectKeysLen parsedOAS ≠ 0 then
        Except.ok jsonString
      else
        Except.error "Iterative generation resulted in an empty JSON object '\x7b\x7d'."

/-- The intent values admitted by the Step 1 `generateObject` schema
`z.object({ intent: z.enum(['yes','no']) })`. -/
inductive Intent where
  | yes : Intent
  | no : Intent
deriving DecidableEq, Repr

/-- The Step 3b `generateText` session: the transcript of
`validate_openapi_schema` tool invocations the model performed (argument string
paired with the returned verdict), and the final text of the session.  The
orchestrator reads only `finalText` (`validationAgentResult.text`); the tool
transcript is recorded here so that properties relating the returned spec to
the validator can be stated. -/
structure SynthSession where
  validatorCalls : List (String × ValidationResult)
  finalText : String
deriving DecidableEq, Repr

/-- Pipeline stages of the orchestrator, in call order, one per outbound
model session: Step 1 intent classification, Step 2 decomposition, Step 3a
evidence gathering, Step 3b iterative generation & validation.  The handler
returns the list of stages whose outbound call it actually issued. -/
inductive Stage where
  | intent : Stage
  | decompose : Stage
  | gather : Stage
  | synthesize : Stage
deriving DecidableEq, Repr

/-- The oracle environment of one request: outcome of each outbound model
call were it issued, plus the `JSON.parse` function.  `.error e` models the
corresponding promise rejecting with message `e`. -/
structure Env where
  intentResult : Except String Intent
  decompResult : Except String (List String)
  infoResult : Except String String
  synthResult : Except String SynthSession
  jsonParse : String → Option Json

/-- The `query` field of the request body as the handler's guard
distinguishes it: absent/undefined, present but not a string, or a string. -/
inductive QueryField where
  | missing : QueryField
  | nonString : QueryField
  | str (s : String) : QueryField
deriving DecidableEq, Repr

/-- Response bodies the handler produces: `{}`, `{ error }`,
`{ error, details }`, and `{ generated_spec }`. -/
inductive RespBody where
  | emptyObj : RespBody
  | errObj (error : String) : RespBody
  | errDetails (error details : String) : RespBody
  | specObj (generated_spec : Json) : RespBody

/-- An HTTP response: `res.status(status).json(body)`. -/
structure Resp where
  status : Nat
  body : RespBody

/-- The POST `/api/generate-openapi` handler of `src/index.ts`, as a function
of the request's `query` field and the oracle environment, returning the
response together with the trace of pipeline stages invoked.

Faithful to the source control flow: the query guard (`!query || typeof query
!== 'string'`) returns 400; a throw from Step 1 or Step 2 reaches the outer
catch (500 `"Internal Server Error during API processing."`); a non-`'yes'`
intent returns 200 `{}`; an empty operation list returns 400; Step 3a failure
(a throw from the call, or empty trimmed text) sets `processingError` to
`"Information Gathering Failed: " + message` and skips Step 3b; Step 3b
failure sets `processingError` to `"Iterative Generation & Validation Failed:
" + message`; Step 4 re-parses `generatedOASString` for the 200 response
(a throw there would reach the outer catch), returns the 500
`{ error, details }` response when `processingError` is set, and the generic
500 otherwise. -/
def handler (env : Env) (query : QueryField) : Resp × List Stage :=
  match query with
  | QueryField.missing =>
    (⟨400, RespBody.errObj "Missing or invalid 'query' in request body"⟩, [])
  | QueryField.nonString =>
    (⟨400, RespBody.errObj "Missing or invalid 'query' in request body"⟩, [])
  | QueryField.str s =>
    if s = "" then
      (⟨400, RespBody.errObj "Missing or invalid 'query' in request body"⟩, [])
    else
      match env.intentResult with
      | Except.error _ =>
        (⟨500, RespBody.errObj "Internal Server Error during API processing."⟩,
         [Stage.intent])
      | Except.ok intent =>
        if intent ≠ Intent.yes then
          (⟨200, RespBody.emptyObj⟩, [Stage.intent])
        else
          match env.decompResult with
          | Except.error _ =>
            (⟨500, RespBody.errObj "Internal Server Error during API processing."⟩,
             [Stage.intent, Stage.decompose])
          | Except.ok requestedOperations =>
            if requestedOperations.length = 0 then
              (⟨400, RespBody.errObj "Could not understand the specific API operations requested in the query."⟩,
               [Stage.intent, Stage.decompose])
            else
              let operation := requestedOperations.headI
              match env.infoResult with
              | Except.error e =>
                (⟨500, RespBody.errDetails
                    ("Failed to generate OpenAPI specification for operation: " ++ operation)
                    ("Information Gathering Failed: " ++ e)⟩,
                 [Stage.intent, Stage.decompose, Stage.gather])
              | Except.ok infoText =>
                if jsTrim infoText = "" then
                  (⟨500, RespBody.errDetails
                      ("Failed to generate OpenAPI specification for operation: " ++ operation)
                      "Information Gathering Failed: Agent failed to produce a text summary in Step 3a."⟩,
                   [Stage.intent, Stage.decompose, Stage.gather])
                else
                  match env.synthResult with
                  | Except.error e =>
                    (⟨500, RespBody.errDetails
                        ("Failed to generate OpenAPI specification for operation: " ++ operation)
                        ("Iterative Generation & Validation Failed: " ++ e)⟩,
                     [Stage.intent, Stage.decompose, Stage.gather, Stage.synthesize])
                  | Except.ok session =>
                    match step3bExtract env.jsonParse session.finalText with
                    | Except.error e =>
                      (⟨500, RespBody.errDetails
                          ("Failed to generate OpenAPI specification for operation: " ++ operation)
                          ("Iterative Generation & Validation Failed: " ++ e)⟩,
                       [Stage.intent, Stage.decompose, Stage.gather, Stage.synthesize])
                    | Except.ok generatedOASString =>
                      match env.jsonParse generatedOASString with
                      | some finalSpec =>
                        (⟨200, RespBody.specObj finalSpec⟩,
                         [Stage.intent, Stage.decompose, Stage.gather, Stage.synthesize])
                      | none =>
                        (⟨500, RespBody.errObj "Internal Server Error during API processing."⟩,
                         [Stage.intent, Stage.decompose, Stage.gather, Stage.synthesize])

/-! ### Concrete oracle instantiations

Small concrete instantiations of the external-collaborator oracles, used to
evaluate the theorems at explicit inputs.  `demoParse` agrees with ECMA-262
`JSON.parse` on every input it is applied to below: `'{"openapi":"3.0.0"}'`
parses to the corresponding object, `'42'` parses to the number `42`, and the
other strings used (`"this is not JSON"`, …) throw a `SyntaxError`. -/

/-- A minimal OAS-fragment-shaped JSON object. -/
def okJson : Json := Json.obj [("openapi", Json.str "3.0.0")]

/-- Concrete `JSON.parse` oracle (see section comment). -/
def demoParse : String → Option Json := fun s =>
  if s = "\x7b\"openapi\":\"3.0.0\"\x7d" then some okJson
  else if s = "42" then some (Json.num 42)
  else none

/-- Concrete `SwaggerParser.validate` oracle that resolves on every input. -/
def acceptAllValidator : Json → Option String := fun _ => none

/-- Concrete `SwaggerParser.validate` oracle that rejects every input with the
message SwaggerParser produces for a document with no `openapi`/`swagger`
field. -/
def rejectAllValidator : Json → Option String :=
  fun _ => some "Unsupported OpenAPI version: undefined"

/-! ### Shared lemmas -/

/-- The two failure messages of `validateOpenAPISchema` are distinct whatever
detail the OAS-validation one carries: they begin with different characters. -/
theorem oasFailedMsg_ne_inputMsg (e : String) :
    ("OAS validation failed: " ++ e) ≠ "Input string is not valid JSON." := by
  intro h
  have h2 := congrArg String.data h
  simp [String.data_append] at h2

/-! ### C9 -/

/-- C9: `validateOpenAPISchema` is total — in this embedding it is a Lean
function returning a `ValidationResult` for every input string and every
behaviour of its `JSON.parse` and `SwaggerParser.validate` collaborators
(both catch blocks return instead of rethrowing) — and its verdict is
consistent: `isValid = true` forces `error = null`, and `isValid = false`
forces `error` to be some (non-null) string. -/
theorem validateOpenAPISchema_total_consistent (parse : String → Option Json)
    (swaggerValidate : Json → Option String) (s : String) :
    ((validateOpenAPISchema parse swaggerValidate s).isValid = true →
      (validateOpenAPISchema parse swaggerValidate s).error = none) ∧
    ((validateOpenAPISchema parse swaggerValidate s).isValid = false →
      ∃ m : String, (validateOpenAPISchema parse swaggerValidate s).error = some m) := by
  unfold validateOpenAPISchema
  cases parse s with
  | none => simp
  | some j =>
    cases hj : jsIsNonNullObject j <;> simp [hj]
    cases swaggerValidate j <;> simp

/-- C9 witness: on the concrete valid document the verdict is
`isValid = true` with `error = null`. -/
theorem validateOpenAPISchema_total_consistent_witness :
    (validateOpenAPISchema demoParse acceptAllValidator
        "\x7b\"openapi\":\"3.0.0\"\x7d").error = none :=
  (validateOpenAPISchema_total_consistent demoParse acceptAllValidator
      "\x7b\"openapi\":\"3.0.0\"\x7d").1 rfl

/-! ### C8 -/

/-- C8 counterexample: `"42"` is valid JSON (ECMA-262 `JSON.parse` returns
the number `42`) and certainly fails OAS schema validation — yet the source
routes every parsed value with `typeof !== 'object'` through the same catch
as a JSON syntax error, so its verdict, message included, is **identical** to
that of the non-JSON string `"this is not JSON"`: the two cases are not
distinguishable, contradicting the claim. -/
theorem validateOpenAPISchema_scalar_json_not_distinguished :
    demoParse "42" = some (Json.num 42) ∧
    demoParse "this is not JSON" = none ∧
    validateOpenAPISchema demoParse rejectAllValidator "42" =
      { isValid := false, error := some "Input string is not valid JSON." } ∧
    validateOpenAPISchema demoParse rejectAllValidator "this is not JSON" =
      { isValid := false, error := some "Input string is not valid JSON." } :=
  ⟨rfl, rfl, rfl, rfl⟩

/-- C8 amended: non-JSON input and JSON input parsing to `null` or a
non-object (scalar) both yield the verdict `{isValid: false, error: "Input
string is not valid JSON."}`; input parsing to a non-null object (or array)
that fails SwaggerParser validation yields `{isValid: false, error: "OAS
validation failed: <detail>"}` — and these two error messages are always
distinct. -/
theorem validateOpenAPISchema_object_error_distinct (parse : String → Option Json)
    (swaggerValidate : Json → Option String) (s1 s2 : String) (j : Json) (e : String)
    (h1 : parse s1 = none) (h2 : parse s2 = some j)
    (hobj : jsIsNonNullObject j = true) (he : swaggerValidate j = some e) :
    validateOpenAPISchema parse swaggerValidate s1 =
      { isValid := false, error := some "Input string is not valid JSON." } ∧
    validateOpenAPISchema parse swaggerValidate s2 =
      { isValid := false, error := some ("OAS validation failed: " ++ e) } ∧
    (validateOpenAPISchema parse swaggerValidate s1).error ≠
      (validateOpenAPISchema parse swaggerValidate s2).error := by
  refine ⟨?_, ?_, ?_⟩
  · unfold validateOpenAPISchema; rw [h1]
  · unfold validateOpenAPISchema; rw [h2]; simp [hobj, he]
  · unfold validateOpenAPISchema; rw [h1, h2]; simp [hobj, he]
    exact fun hcon => oasFailedMsg_ne_inputMsg e hcon.symm

/-- C8 amended witness: at the concrete non-JSON string and the concrete
schema-invalid object document the two error messages differ. -/
theorem validateOpenAPISchema_object_error_distinct_witness :
    (validateOpenAPISchema demoParse rejectAllValidator "this is not JSON").error ≠
      (validateOpenAPISchema demoParse rejectAllValidator
        "\x7b\"openapi\":\"3.0.0\"\x7d").error :=
  (validateOpenAPISchema_object_error_distinct demoParse rejectAllValidator
      "this is not JSON" "\x7b\"openapi\":\"3.0.0\"\x7d" okJson
      "Unsupported OpenAPI version: undefined" rfl rfl rfl rfl).2.2

/-! ### C6 -/

/-- C6: a committed alignment result always carries a score in `[0.0, 5.0]`,
and `parseFloat` failure (`NaN`) or an out-of-range value always produces the
error `"Alignment evaluation failed: Alignment evaluator returned an invalid
score: <text>"` — never a defaulted score. -/
theorem evaluateAlignment_range_or_error (apiKey : Option String)
    (parseFloat : String → Option ℚ) (llmText : Except String String) :
    (∀ r, evaluateAlignment apiKey parseFloat llmText = Except.ok r →
      0 ≤ r.score ∧ r.score ≤ 5) ∧
    (∀ key text, apiKey = some key → llmText = Except.ok text →
      parseFloat (jsTrim text) = none →
      evaluateAlignment apiKey parseFloat llmText =
        Except.error ("Alignment evaluation failed: Alignment evaluator returned an invalid score: " ++ text)) ∧
    (∀ key text q, apiKey = some key → llmText = Except.ok text →
      parseFloat (jsTrim text) = some q → (q < 0 ∨ q > 5) →
      evaluateAlignment apiKey parseFloat llmText =
        Except.error ("Alignment evaluation failed: Alignment evaluator returned an invalid score: " ++ text)) := by
  refine ⟨?_, ?_, ?_⟩
  · intro r hr
    simp only [evaluateAlignment] at hr
    cases apiKey with
    | none => exact absurd hr (by simp)
    | some key =>
      cases llmText with
      | error e => exact absurd hr (by simp)
      | ok text =>
        simp only at hr
        cases hpf : parseFloat (jsTrim text) with
        | none => rw [hpf] at hr; exact absurd hr (by simp)
        | some q =>
          rw [hpf] at hr
          simp only at hr
          by_cases hq : q < 0 ∨ q > 5
          · rw [if_pos hq] at hr; exact absurd hr (by simp)
          · rw [if_neg hq] at hr
            push_neg at hq
            cases hr
            exact ⟨hq.1, hq.2⟩
  · intro key text hk ht hpf
    subst hk; subst ht
    simp only [evaluateAlignment]
    rw [hpf]
  · intro key text q hk ht hpf hq
    subst hk; subst ht
    simp only [evaluateAlignment]
    rw [hpf]
    simp only
    rw [if_pos hq]

/-- C6 witness: a `parseFloat` oracle reading `"3"` as `3` commits the
in-range score `3`, and one returning `NaN` on `"not a number"` produces the
invalid-score error. -/
theorem evaluateAlignment_range_or_error_witness :
    (0 ≤ (AlignmentResult.mk (3 : ℚ)).score ∧ (AlignmentResult.mk (3 : ℚ)).score ≤ 5) ∧
    evaluateAlignment (some "gemini-key") (fun _ => none) (Except.ok "not a number") =
      Except.error ("Alignment evaluation failed: Alignment evaluator returned an invalid score: " ++ "not a number") :=
  ⟨(evaluateAlignment_range_or_error (some "gemini-key")
      (fun s => if s = "3" then some 3 else none) (Except.ok "3")).1
      (AlignmentResult.mk (3 : ℚ)) rfl,
   (evaluateAlignment_range_or_error (some "gemini-key") (fun _ => none)
      (Except.ok "not a number")).2.1 "gemini-key" "not a number" rfl rfl rfl⟩

/-! ### C7 -/

/-- C7 counterexample: the model output `" True "` is neither exactly
`"true"` nor exactly `"false"`, yet the stage **succeeds** with verdict
`is_accurate = true`, because the source normalizes the output with
`text.trim().toLowerCase()` before comparing — contradicting the claim that
any output other than exactly `"true"`/`"false"` fails the stage. -/
theorem evaluateVeracity_accepts_nonexact_output :
    evaluateVeracity (some "gemini-key") (Except.ok " True ") =
      Except.ok { is_accurate := true } ∧
    " True " ≠ "true" ∧ " True " ≠ "false" :=
  ⟨rfl, by decide, by decide⟩

/-- C7 amended: the stage succeeds exactly when the **trimmed, lower-cased**
model output is `"true"` or `"false"`, the verdict being the boolean it
denotes; every output whose normalization is neither yields the error
`"Veracity evaluation failed: Veracity evaluator returned an invalid
response: <text>"`. -/
theorem evaluateVeracity_normalized_exact (key text : String) :
    (∀ r, evaluateVeracity (some key) (Except.ok text) = Except.ok r →
      (jsToLowerCase (jsTrim text) = "true" ∨ jsToLowerCase (jsTrim text) = "false") ∧
      r.is_accurate = decide (jsToLowerCase (jsTrim text) = "true")) ∧
    (jsToLowerCase (jsTrim text) ≠ "true" → jsToLowerCase (jsTrim text) ≠ "false" →
      evaluateVeracity (some key) (Except.ok text) =
        Except.error ("Veracity evaluation failed: Veracity evaluator returned an invalid response: " ++ text)) := by
  constructor
  · intro r hr
    simp only [evaluateVeracity] at hr
    by_cases h : jsToLowerCase (jsTrim text) ≠ "true" ∧ jsToLowerCase (jsTrim text) ≠ "false"
    · rw [if_pos h] at hr; exact absurd hr (by simp)
    · rw [if_neg h] at hr
      cases hr
      push_neg at h
      constructor
      · by_cases ht : jsToLowerCase (jsTrim text) = "true"
        · exact Or.inl ht
        · exact Or.inr (h ht)
      · rfl
  · intro ht hf
    simp only [evaluateVeracity]
    rw [if_pos ⟨ht, hf⟩]

/-- C7 amended witness: the output `"maybe"` normalizes to neither `"true"`
nor `"false"` and fails the stage with the invalid-response error. -/
theorem evaluateVeracity_normalized_exact_witness :
    evaluateVeracity (some "gemini-key") (Except.ok "maybe") =
      Except.error ("Veracity evaluation failed: Veracity evaluator returned an invalid response: " ++ "maybe") :=
  (evaluateVeracity_normalized_exact "gemini-key" "maybe").2 (by decide) (by decide)

/-! ### C4 -/

/-- Concrete `JSON.parse` oracle for the Step 3b counterexample, agreeing
with ECMA-262 `JSON.parse` on the strings it is applied to: `'{"a":1}'`
parses to the corresponding object and `'{"a":1} x {"b":2}'` throws a
`SyntaxError`. -/
def c4Parse : String → Option Json := fun s =>
  if s = "\x7b\"a\":1\x7d" then some (Json.obj [("a", Json.num 1)]) else none

/-- C4 counterexample: on the final output `'{"a":1} x {"b":2}'` the first
top-level brace-balanced JSON block is `'{"a":1}'`, but the source's greedy
regex `/\x7b[\s\S]*\x7d/` extracts the span from the first `\x7b` to the
**last** `\x7d` — the whole string — which is not valid JSON, so the stage
fails where the claimed extraction would have succeeded. -/
theorem step3b_extraction_greedy_not_first_block :
    extractJsonBlock "\x7b\"a\":1\x7d x \x7b\"b\":2\x7d" =
      some "\x7b\"a\":1\x7d x \x7b\"b\":2\x7d" ∧
    specFirstBalancedBlock "\x7b\"a\":1\x7d x \x7b\"b\":2\x7d" =
      some "\x7b\"a\":1\x7d" ∧
    extractJsonBlock "\x7b\"a\":1\x7d x \x7b\"b\":2\x7d" ≠
      specFirstBalancedBlock "\x7b\"a\":1\x7d x \x7b\"b\":2\x7d" ∧
    step3bExtract c4Parse "\x7b\"a\":1\x7d x \x7b\"b\":2\x7d" =
      Except.error ("Final extracted block was not valid JSON. Extracted: " ++
        "\x7b\"a\":1\x7d x \x7b\"b\":2\x7d") :=
  ⟨by decide, by decide, by decide, rfl⟩

/-- C4 amended: Step 3b extracts the greedy first-`\x7b`-to-last-`\x7d` span of
the trimmed final output (not the first balanced block), parses it, and fails
the stage when no such span exists, when parsing fails, or when the parsed
value is `null`, not an object/array, or has no keys; otherwise the stage
succeeds with the extracted string. -/
theorem step3bExtract_cases (parse : String → Option Json) (finalText : String) :
    (extractJsonBlock (jsTrim finalText) = none →
      step3bExtract parse finalText =
        Except.error ("Agent output did not contain a recognizable JSON block. Output: " ++ jsTrim finalText)) ∧
    (∀ js, extractJsonBlock (jsTrim finalText) = some js →
      (parse js = none →
        step3bExtract parse finalText =
          Except.error ("Final extracted block was not valid JSON. Extracted: " ++ js)) ∧
      (∀ j, parse js = some j →
        ¬(jsIsNonNullObject j = true ∧ jsObjectKeysLen j ≠ 0) →
        step3bExtract parse finalText =
          Except.error "Iterative generation resulted in an empty JSON object '\x7b\x7d'.") ∧
      (∀ j, parse js = some j → jsIsNonNullObject j = true → jsObjectKeysLen j ≠ 0 →
        step3bExtract parse finalText = Except.ok js)) := by
  constructor
  · intro hex
    simp only [step3bExtract]
    rw [hex]
  · intro js hex
    refine ⟨?_, ?_, ?_⟩
    · intro hp
      simp only [step3bExtract]
      rw [hex]
      simp only
      rw [hp]
    · intro j hp hbad
      simp only [step3bExtract]
      rw [hex]
      simp only
      rw [hp]
      simp only
      rw [if_neg hbad]
    · intro j hp hobj hkeys
      simp only [step3bExtract]
      rw [hex]
      simp only
      rw [hp]
      simp only
      rw [if_pos ⟨hobj, hkeys⟩]

/-- C4 amended witness: a final output with no brace pair fails the stage
with the no-JSON-block error. -/
theorem step3bExtract_cases_witness :
    step3bExtract demoParse "no json here" =
      Except.error ("Agent output did not contain a recognizable JSON block. Output: " ++
        jsTrim "no json here") :=
  (step3bExtract_cases demoParse "no json here").1 (by decide)

/-! ### Concrete request environments -/

/-- An environment in which every outbound call succeeds: intent `yes`, one
decomposed operation, non-empty evidence text, and a Step 3b session whose
final text is the valid document — with an **empty** validator-call
transcript. -/
def happyEnv : Env where
  intentResult := Except.ok Intent.yes
  decompResult := Except.ok ["Create a Stripe refund"]
  infoResult := Except.ok "Operation: Create Refund. Method: POST. Path: /v1/refunds."
  synthResult := Except.ok
    { validatorCalls := [], finalText := "\x7b\"openapi\":\"3.0.0\"\x7d" }
  jsonParse := demoParse

/-- `happyEnv` with the intent model answering `no`. -/
def intentNoEnv : Env :=
  { happyEnv with intentResult := Except.ok Intent.no }

/-- `happyEnv` with the intent `generateObject` call throwing: the model
emitted output that does not validate against the `z.enum(['yes','no'])`
schema, which rejects the promise. -/
def intentMalformedEnv : Env :=
  { happyEnv with
      intentResult := Except.error "No object generated: response did not match schema." }

/-- `happyEnv` with the decomposition model returning an empty operation
list. -/
def emptyOpsEnv : Env :=
  { happyEnv with decompResult := Except.ok [] }

/-- `happyEnv` with the evidence-gathering model returning whitespace-only
text. -/
def emptyEvidenceEnv : Env :=
  { happyEnv with infoResult := Except.ok "   " }

/-! ### C10 -/

/-- C10: a request whose `query` is the empty string takes the same guard
branch as a missing or non-string `query` — the empty string is falsy in
JavaScript, so `!query` catches it — and yields the identical 400 caller
error with no pipeline stage invoked (empty trace), whatever the oracle
environment. -/
theorem handler_empty_query_caller_error (env : Env) :
    handler env (QueryField.str "") =
      (⟨400, RespBody.errObj "Missing or invalid 'query' in request body"⟩, []) ∧
    handler env (QueryField.str "") = handler env QueryField.missing ∧
    handler env QueryField.nonString = handler env QueryField.missing :=
  ⟨rfl, rfl, rfl⟩

/-! ### C2 -/

/-- C2 counterexample: when the intent model's output is malformed — the
`generateObject` call rejects because the output does not match the
`z.enum(['yes','no'])` schema — the handler's outer catch returns a **500
error**, not the empty success object the claim requires for every
non-`'yes'` output. -/
theorem handler_malformed_intent_500 :
    handler intentMalformedEnv (QueryField.str "Generate an OpenAPI spec for Stripe refunds") =
      (⟨500, RespBody.errObj "Internal Server Error during API processing."⟩,
       [Stage.intent]) ∧
    (handler intentMalformedEnv
        (QueryField.str "Generate an OpenAPI spec for Stripe refunds")).1.status ≠ 200 :=
  ⟨rfl, by decide⟩

/-- C2 amended: for every intent output that schema-validates to a value
other than `'yes'` (that is, to `'no'`), the pipeline stops after the intent
stage and responds 200 with the empty object; an output that fails schema
validation instead rejects the `generateObject` promise and produces the
handler's generic 500 internal error. -/
theorem handler_intent_no_returns_empty (env : Env) (s : String) (i : Intent)
    (hs : s ≠ "") (hi : env.intentResult = Except.ok i) (hne : i ≠ Intent.yes) :
    handler env (QueryField.str s) = (⟨200, RespBody.emptyObj⟩, [Stage.intent]) := by
  simp only [handler]
  rw [if_neg hs, hi]
  simp only
  rw [if_pos hne]

/-- C2 amended witness: intent `no` on a concrete query returns 200 `\x7b\x7d`
having invoked only the intent stage. -/
theorem handler_intent_no_returns_empty_witness :
    handler intentNoEnv (QueryField.str "What is the weather") =
      (⟨200, RespBody.emptyObj⟩, [Stage.intent]) :=
  handler_intent_no_returns_empty intentNoEnv "What is the weather" Intent.no
    (by decide) rfl (by decide)

/-! ### C3 -/

/-- C3: when intent classification answers `yes` but decomposition returns an
empty operation list, the handler responds 400 with the
could-not-understand-operations caller error, and the invocation trace stops
at `[intent, decompose]` — no evidence-gathering or synthesis model session
and hence no tool call is ever issued. -/
theorem handler_empty_decomposition_400 (env : Env) (s : String)
    (hs : s ≠ "") (hi : env.intentResult = Except.ok Intent.yes)
    (hd : env.decompResult = Except.ok []) :
    handler env (QueryField.str s) =
      (⟨400, RespBody.errObj "Could not understand the specific API operations requested in the query."⟩,
       [Stage.intent, Stage.decompose]) := by
  simp only [handler]
  rw [if_neg hs, hi]
  simp only
  rw [if_neg (by decide : ¬(Intent.yes ≠ Intent.yes)), hd]
  rfl

/-- C3 witness: the concrete environment decomposing to `[]` yields the 400
response with trace `[intent, decompose]`. -/
theorem handler_empty_decomposition_400_witness :
    handler emptyOpsEnv (QueryField.str "Generate an OpenAPI spec for Stripe refunds") =
      (⟨400, RespBody.errObj "Could not understand the specific API operations requested in the query."⟩,
       [Stage.intent, Stage.decompose]) :=
  handler_empty_decomposition_400 emptyOpsEnv
    "Generate an OpenAPI spec for Stripe refunds" (by decide) rfl rfl

/-! ### C5 -/

/-- C5: when the evidence-gathering model returns empty or whitespace-only
text, the handler records the stage failure `"Information Gathering Failed:
Agent failed to produce a text summary in Step 3a."`, skips synthesis (the
trace stops at `gather`), and responds 500 with that failure in `details` —
which indeed starts with `"Information Gathering Failed"`. -/
theorem handler_empty_evidence_processing_failure (env : Env) (s : String)
    (ops : List String) (t : String)
    (hs : s ≠ "") (hi : env.intentResult = Except.ok Intent.yes)
    (hd : env.decompResult = Except.ok ops) (hops : ops.length ≠ 0)
    (ht : env.infoResult = Except.ok t) (htrim : jsTrim t = "") :
    handler env (QueryField.str s) =
      (⟨500, RespBody.errDetails
          ("Failed to generate OpenAPI specification for operation: " ++ ops.headI)
          "Information Gathering Failed: Agent failed to produce a text summary in Step 3a."⟩,
       [Stage.intent, Stage.decompose, Stage.gather]) ∧
    (∃ rest,
      "Information Gathering Failed: Agent failed to produce a text summary in Step 3a." =
        "Information Gathering Failed" ++ rest) := by
  refine ⟨?_, ": Agent failed to produce a text summary in Step 3a.", rfl⟩
  simp only [handler]
  rw [if_neg hs, hi]
  simp only
  rw [if_neg (by decide : ¬(Intent.yes ≠ Intent.yes)), hd]
  simp only
  rw [if_neg hops, ht]
  simp only
  rw [if_pos htrim]

/-- C5 witness: whitespace-only evidence text in the concrete environment
produces the 500 processing failure whose `details` carries the
Information-Gathering-Failed message, with no synthesis stage in the trace. -/
theorem handler_empty_evidence_processing_failure_witness :
    handler emptyEvidenceEnv (QueryField.str "Generate an OpenAPI spec for creating a Stripe refund") =
      (⟨500, RespBody.errDetails
          ("Failed to generate OpenAPI specification for operation: " ++
            (["Create a Stripe refund"] : List String).headI)
          "Information Gathering Failed: Agent failed to produce a text summary in Step 3a."⟩,
       [Stage.intent, Stage.decompose, Stage.gather]) :=
  (handler_empty_evidence_processing_failure emptyEvidenceEnv
    "Generate an OpenAPI spec for creating a Stripe refund"
    ["Create a Stripe refund"] "   " (by decide) rfl rfl (by decide) rfl (by decide)).1

/-! ### C1 -/

/-- Inversion of a successful Step 3b extraction: the returned string is the
greedy brace span of the trimmed final text, and it parses to a non-null
object/array with at least one key. -/
theorem step3bExtract_ok_inversion (parse : String → Option Json)
    (finalText js : String) (h : step3bExtract parse finalText = Except.ok js) :
    extractJsonBlock (jsTrim finalText) = some js ∧
    ∃ j, parse js = some j ∧ jsIsNonNullObject j = true ∧ jsObjectKeysLen j ≠ 0 := by
  simp only [step3bExtract] at h
  cases hex : extractJsonBlock (jsTrim finalText) with
  | none => rw [hex] at h; exact absurd h (by simp)
  | some js0 =>
    rw [hex] at h
    simp only at h
    cases hp : parse js0 with
    | none => rw [hp] at h; exact absurd h (by simp)
    | some j =>
      rw [hp] at h
      simp only at h
      by_cases hc : jsIsNonNullObject j = true ∧ jsObjectKeysLen j ≠ 0
      · rw [if_pos hc] at h
        cases h
        exact ⟨rfl, j, hp, hc.1, hc.2⟩
      · rw [if_neg hc] at h; exact absurd h (by simp)

/-- C1 counterexample: a request whose Step 3b session performed **zero**
`validate_openapi_schema` tool calls still produces a 200 success response
carrying the extracted spec — the orchestrator only re-parses the final text
(`// We trust the iterative process handled validation, but parse one last
time`) and nothing ties the returned CandidateSpec to a validator pass, so a
spec that never passed syntactic validation reaches the caller. -/
theorem handler_success_without_validation :
    happyEnv.synthResult = Except.ok
      { validatorCalls := [], finalText := "\x7b\"openapi\":\"3.0.0\"\x7d" } ∧
    handler happyEnv (QueryField.str "Generate an OpenAPI spec for creating a Stripe refund") =
      (⟨200, RespBody.specObj okJson⟩,
       [Stage.intent, Stage.decompose, Stage.gather, Stage.synthesize]) :=
  ⟨rfl, rfl⟩

/-- C1 amended: every 200 success response carries exactly the value
`JSON.parse` produced from the brace-delimited block extracted out of the
Step 3b session's final text, and that value is a non-null object/array with
at least one key — so no evidence text and no unparsed or empty JSON ever
reaches the caller; a Schema-Validator pass, however, is requested of the
model-driven loop but not enforced by the orchestrator. -/
theorem handler_success_inversion (env : Env) (q : QueryField) (spec : Json)
    (tr : List Stage)
    (h : handler env q = (⟨200, RespBody.specObj spec⟩, tr)) :
    ∃ session jsonString,
      env.synthResult = Except.ok session ∧
      extractJsonBlock (jsTrim session.finalText) = some jsonString ∧
      env.jsonParse jsonString = some spec ∧
      jsIsNonNullObject spec = true ∧
      jsObjectKeysLen spec ≠ 0 ∧
      step3bExtract env.jsonParse session.finalText = Except.ok jsonString := by
  simp only [handler] at h
  cases q with
  | missing => exact absurd h (by simp)
  | nonString => exact absurd h (by simp)
  | str s =>
    simp only at h
    by_cases hs : s = ""
    · rw [if_pos hs] at h; exact absurd h (by simp)
    · rw [if_neg hs] at h
      cases hint : env.intentResult with
      | error e => rw [hint] at h; exact absurd h (by simp)
      | ok i =>
        rw [hint] at h
        simp only at h
        by_cases hi : i ≠ Intent.yes
        · rw [if_pos hi] at h; exact absurd h (by simp)
        · rw [if_neg hi] at h
          cases hdec : env.decompResult with
          | error e => rw [hdec] at h; exact absurd h (by simp)
          | ok ops =>
            rw [hdec] at h
            simp only at h
            by_cases hlen : ops.length = 0
            · rw [if_pos hlen] at h; exact absurd h (by simp)
            · rw [if_neg hlen] at h
              cases hinfo : env.infoResult with
              | error e => rw [hinfo] at h; exact absurd h (by simp)
              | ok t =>
                rw [hinfo] at h
                simp only at h
                by_cases htr : jsTrim t = ""
                · rw [if_pos htr] at h; exact absurd h (by simp)
                · rw [if_neg htr] at h
                  cases hsynth : env.synthResult with
                  | error e => rw [hsynth] at h; exact absurd h (by simp)
                  | ok session =>
                    rw [hsynth] at h
                    simp only at h
                    cases hstep : step3bExtract env.jsonParse session.finalText with
                    | error e => rw [hstep] at h; exact absurd h (by simp)
                    | ok js =>
                      rw [hstep] at h
                      simp only at h
                      cases hparse : env.jsonParse js with
                      | none => rw [hparse] at h; exact absurd h (by simp)
                      | some j =>
                        rw [hparse] at h
                        simp only [Prod.mk.injEq, Resp.mk.injEq,
                          RespBody.specObj.injEq, true_and] at h
                        obtain ⟨hj, -⟩ := h
                        obtain ⟨hex, j', hp', hobj', hkeys'⟩ :=
                          step3bExtract_ok_inversion env.jsonParse session.finalText js hstep
                        rw [hparse] at hp'
                        cases hp'
                        subst hj
                        exact ⟨session, js, rfl, hex, hparse, hobj', hkeys', hstep⟩

/-- C1 amended witness: in the all-success environment the returned spec is
the parsed extracted block of the synthesis session's final text. -/
theorem handler_success_inversion_witness :
    ∃ session jsonString,
      happyEnv.synthResult = Except.ok session ∧
      extractJsonBlock (jsTrim session.finalText) = some jsonString ∧
      happyEnv.jsonParse jsonString = some okJson ∧
      jsIsNonNullObject okJson = true ∧
      jsObjectKeysLen okJson ≠ 0 ∧
      step3bExtract happyEnv.jsonParse session.finalText = Except.ok jsonString :=
  handler_success_inversion happyEnv
    (QueryField.str "Generate an OpenAPI spec for creating a Stripe refund") okJson
    [Stage.intent, Stage.decompose, Stage.gather, Stage.synthesize] rfl

end TextToOpenapi
